import Mathlib

/-!
Verification of the RigolOscilloscope driver (rigol1000z.py, rigol2000a.py)
against its natural-language specification.

The Python code is shallowly embedded: pure computations become Lean
functions over `Nat`/`Int`/`Rat` and `List`, the SCPI commands written to the
instrument are recorded as an explicit trace of `Cmd` values, the instrument
itself is a response function supplied as a parameter, and Python exceptions
become `Except` errors.
-/

namespace Rigol

/-! ### Block planning (`get_data` chunking)

`_Rigol1054zChannel.get_data` (rigol1000z.py lines 148-162) computes
`num_blocks = points // max_num_pts` and `last_block_pts = points % max_num_pts`
and then iterates `for i in range(num_blocks+1)`: for `i < num_blocks` it
selects the 1-based inclusive range `(1+i*max, max*(i+1))`; at `i = num_blocks`
it selects `(1+num_blocks*max, num_blocks*max+last_block_pts)` if
`last_block_pts` is nonzero and otherwise breaks out of the loop.
`_Rigol2072aChannel.get_data` (rigol2000a.py lines 183-197) is identical with a
different block size.  `blockPlan` is the list of ranges that loop selects. -/

def blockPlan (points maxPts : Nat) : List (Nat × Nat) :=
  (List.range (points / maxPts)).map (fun i => (1 + i * maxPts, maxPts * (i + 1))) ++
    (if points % maxPts = 0 then []
     else [(1 + (points / maxPts) * maxPts, (points / maxPts) * maxPts + points % maxPts)])

/-- Number of samples covered by a 1-based inclusive `(start, stop)` range. -/
def rangeSize (r : Nat × Nat) : Nat := r.2 + 1 - r.1

theorem blockPlan_length (p m : Nat) :
    (blockPlan p m).length = p / m + (if p % m = 0 then 0 else 1) := by
  unfold blockPlan
  split <;> simp

theorem blockPlan_getElem? (p m : Nat) (hm : 0 < m) (j : Nat)
    (hj : j < (blockPlan p m).length) :
    (blockPlan p m)[j]? = some (1 + j * m, min ((j + 1) * m) p) := by
  have hlen := blockPlan_length p m
  rcases Nat.lt_or_ge j (p / m) with hlt | hge
  · have hj1 : j + 1 ≤ p / m := hlt
    have hside : (j + 1) * m ≤ p :=
      le_trans (Nat.mul_le_mul_right m hj1) (Nat.div_mul_le_self p m)
    have hlen2 : j < ((List.range (p / m)).map
        (fun i => (1 + i * m, m * (i + 1)))).length := by simpa using hlt
    unfold blockPlan
    rw [List.getElem?_append_left hlen2, List.getElem?_map,
        List.getElem?_range hlt]
    simp only [Option.map_some', Option.some.injEq, Prod.mk.injEq]
    refine ⟨by trivial, ?_⟩
    rw [Nat.min_eq_left hside]
    exact Nat.mul_comm m (j + 1)
  · have hne : ¬ p % m = 0 := by
      intro h0
      rw [hlen, h0] at hj
      simp at hj
      omega
    have hj' : j = p / m := by
      rw [hlen, if_neg hne] at hj
      omega
    subst hj'
    have hmod := Nat.div_add_mod p m
    have hmodlt : p % m < m := Nat.mod_lt p hm
    have hlt2 : p < (p / m + 1) * m := by
      have h1 : (p / m + 1) * m = m * (p / m) + m := by ring
      omega
    have hmin : min ((p / m + 1) * m) p = p := Nat.min_eq_right (Nat.le_of_lt hlt2)
    unfold blockPlan
    rw [if_neg hne, List.getElem?_append_right (by simp)]
    simp only [List.length_map, List.length_range, Nat.sub_self,
      List.getElem?_cons_zero, hmin, Option.some.injEq, Prod.mk.injEq]
    have hc : p / m * m = m * (p / m) := Nat.mul_comm _ _
    exact ⟨by trivial, by omega⟩

theorem blockPlan_mem (p m : Nat) (hm : 0 < m) (r : Nat × Nat)
    (hr : r ∈ blockPlan p m) :
    ∃ j, j < (blockPlan p m).length ∧ r = (1 + j * m, min ((j + 1) * m) p) := by
  obtain ⟨j, hj, hget⟩ := List.getElem_of_mem hr
  refine ⟨j, hj, ?_⟩
  have h := blockPlan_getElem? p m hm j hj
  rw [List.getElem?_eq_getElem hj, hget] at h
  exact Option.some.inj h

theorem blockPlan_start_lt (p m : Nat) (hm : 0 < m) (j : Nat)
    (hj : j < (blockPlan p m).length) : j * m < p := by
  have hlen := blockPlan_length p m
  have hmod := Nat.div_add_mod p m
  by_cases h0 : p % m = 0
  · have hjlt : j + 1 ≤ p / m := by rw [hlen, h0] at hj; simp at hj; omega
    have h1 : (j + 1) * m ≤ p / m * m := Nat.mul_le_mul_right m hjlt
    have h2 : p / m * m ≤ p := Nat.div_mul_le_self p m
    have h3 : (j + 1) * m = j * m + m := by ring
    omega
  · have hjle : j ≤ p / m := by rw [hlen, if_neg h0] at hj; omega
    have h1 : j * m ≤ p / m * m := Nat.mul_le_mul_right m hjle
    have hc : p / m * m = m * (p / m) := Nat.mul_comm _ _
    have hpos : 0 < p % m := Nat.pos_of_ne_zero h0
    omega

theorem blockPlan_sum (p m : Nat) (hm : 0 < m) :
    ((blockPlan p m).map rangeSize).sum = p := by
  unfold blockPlan
  rw [List.map_append, List.sum_append, List.map_map]
  have hconst : ((List.range (p / m)).map
      (rangeSize ∘ fun i => (1 + i * m, m * (i + 1)))) =
      (List.range (p / m)).map (fun _ => m) :=
    List.map_congr_left (fun i _ => by
      show m * (i + 1) + 1 - (1 + i * m) = m
      have h : m * (i + 1) = i * m + m := by ring
      omega)
  rw [hconst, List.map_const', List.length_range, List.sum_replicate, smul_eq_mul]
  have hmod := Nat.div_add_mod p m
  have hc : p / m * m = m * (p / m) := Nat.mul_comm _ _
  by_cases h0 : p % m = 0
  · rw [if_pos h0]
    simp only [List.map_nil, List.sum_nil]
    omega
  · rw [if_neg h0]
    simp only [List.map_cons, List.map_nil, List.sum_cons, List.sum_nil, rangeSize]
    omega

theorem blockPlan_zero (m : Nat) : blockPlan 0 m = [] := by
  unfold blockPlan
  simp [Nat.zero_div, Nat.zero_mod]

/-! ### Python string primitives

The preamble decoder calls `str.split(',')`, `int(...)` and `float(...)`.
These builtins are modelled below on lists of characters.  The numeric
parsers cover the plain finite decimal literal forms (optional surrounding
whitespace, one optional sign, digits, and for `float` an optional fraction
and exponent); exotic inputs Python also accepts (underscore digit grouping,
`inf`/`nan`, unicode digits) do not occur in instrument preambles and are
treated as unparsable. -/

/-- The characters `str.strip()` (and `int`/`float` tolerance) removes. -/
def isPySpace (c : Char) : Bool :=
  c = ' ' ∨ c = '\t' ∨ c = '\n' ∨ c = '\r' ∨ c = '\x0b' ∨ c = '\x0c'

def trimChars (cs : List Char) : List Char :=
  ((cs.dropWhile isPySpace).reverse.dropWhile isPySpace).reverse

/-- Models Python `s.split(',')` on the character list: splits at every comma,
keeping empty pieces, so the result always has one more piece than there are
commas (`''.split(',') == ['']`). -/
def splitCommaChars : List Char → List (List Char)
  | [] => [[]]
  | c :: rest =>
    match splitCommaChars rest with
    | [] => [[]]
    | f :: r => if c = ',' then [] :: f :: r else (c :: f) :: r

def splitComma (s : String) : List String :=
  (splitCommaChars s.toList).map (fun cs => String.mk cs)

/-- Models Python `str.upper()` (ASCII range, which is all the driver uses). -/
def pyUpper (s : String) : String :=
  String.mk (s.toList.map Char.toUpper)

/-- Value of a digit string, most significant first. -/
def digitsVal (ds : List Char) : Nat :=
  ds.foldl (fun a c => a * 10 + (c.toNat - 48)) 0

/-- A nonempty all-digit run parses to its value; anything else fails. -/
def parseDigits (ds : List Char) : Option Nat :=
  if ds ≠ [] ∧ ds.all Char.isDigit then some (digitsVal ds) else none

/-- One optional sign followed by digits, as an `Int`. -/
def parseSignedDigits (cs : List Char) : Option Int :=
  match cs with
  | '+' :: ds => (parseDigits ds).map (fun n => (n : Int))
  | '-' :: ds => (parseDigits ds).map (fun n => -(n : Int))
  | ds => (parseDigits ds).map (fun n => (n : Int))

/-- Models Python `int(s)` on plain decimal literals. -/
def parsePyInt (s : String) : Option Int :=
  parseSignedDigits (trimChars s.toList)

/-- Splits at the first `e`/`E`, returning the part before it and, when an
`e`/`E` is present, the part after it. -/
def splitAtExp : List Char → List Char × Option (List Char)
  | [] => ([], none)
  | c :: rest =>
    if c = 'e' ∨ c = 'E' then ([], some rest)
    else
      let r := splitAtExp rest
      (c :: r.1, r.2)

/-- Splits at the first `.`. -/
def splitAtDot : List Char → List Char × Option (List Char)
  | [] => ([], none)
  | c :: rest =>
    if c = '.' then ([], some rest)
    else
      let r := splitAtDot rest
      (c :: r.1, r.2)

/-- The mantissa of a float literal: digits, optionally with one dot, at
least one digit overall (`"1"`, `"1.5"`, `"1."`, `".5"`). -/
def parseMantissa (cs : List Char) : Option Rat :=
  match splitAtDot cs with
  | (ip, none) => (parseDigits ip).map (fun n => (n : Rat))
  | (ip, some fp) =>
    if (ip ≠ [] ∨ fp ≠ []) ∧ ip.all Char.isDigit ∧ fp.all Char.isDigit then
      some ((digitsVal ip : Rat) + (digitsVal fp : Rat) / (10 : Rat) ^ fp.length)
    else none

/-- Unsigned float literal body: mantissa with an optional exponent part. -/
def parseFloatBody (cs : List Char) : Option Rat :=
  match splitAtExp cs with
  | (mant, none) => parseMantissa mant
  | (mant, some ecs) =>
    match parseMantissa mant, parseSignedDigits ecs with
    | some q, some e => some (q * (10 : Rat) ^ e)
    | _, _ => none

/-- Models Python `float(s)` on finite decimal literals, with the value taken
exactly (as a rational) rather than rounded to binary floating point. -/
def parsePyFloat (s : String) : Option Rat :=
  match trimChars s.toList with
  | '+' :: body => parseFloatBody body
  | '-' :: body => (parseFloatBody body).map (fun q => -q)
  | body => parseFloatBody body

/-! ### Preamble decoding

`get_data_premable` (the source spells it that way; rigol1000z.py lines
120-135, rigol2000a.py lines 155-169) splits the `:wav:pre?` response on
commas and builds a dict with fields 0-3 through `int(...)` and fields 4-9
through `float(...)`.  A missing field raises `IndexError` and an unparsable
field raises `ValueError` in Python; the specification names this failure
`MalformedPreamble`, and the embedding uses that name for both failure
shapes. -/

structure Preamble where
  format : Int
  type : Int
  points : Int
  count : Int
  xincrement : Rat
  xorigin : Rat
  xreference : Rat
  yincrement : Rat
  yorigin : Rat
  yreference : Rat
deriving DecidableEq, Repr

inductive MalformedPreamble
  | missingField (idx : Nat)
  | badField (idx : Nat)
deriving DecidableEq, Repr

def fieldAsInt (fields : List String) (i : Nat) : Except MalformedPreamble Int :=
  match fields[i]? with
  | none => .error (.missingField i)
  | some s =>
    match parsePyInt s with
    | none => .error (.badField i)
    | some v => .ok v

def fieldAsFloat (fields : List String) (i : Nat) : Except MalformedPreamble Rat :=
  match fields[i]? with
  | none => .error (.missingField i)
  | some s =>
    match parsePyFloat s with
    | none => .error (.badField i)
    | some v => .ok v

def parsePreambleFields (fields : List String) :
    Except MalformedPreamble Preamble := do
  let f0 ← fieldAsInt fields 0
  let f1 ← fieldAsInt fields 1
  let f2 ← fieldAsInt fields 2
  let f3 ← fieldAsInt fields 3
  let f4 ← fieldAsFloat fields 4
  let f5 ← fieldAsFloat fields 5
  let f6 ← fieldAsFloat fields 6
  let f7 ← fieldAsFloat fields 7
  let f8 ← fieldAsFloat fields 8
  let f9 ← fieldAsFloat fields 9
  return { format := f0, type := f1, points := f2, count := f3,
           xincrement := f4, xorigin := f5, xreference := f6,
           yincrement := f7, yorigin := f8, yreference := f9 }

def get_data_premable (resp : String) : Except MalformedPreamble Preamble :=
  parsePreambleFields (splitComma resp)

theorem fieldAsInt_ok {fields : List String} {i : Nat} {v : Int}
    (h : fieldAsInt fields i = .ok v) :
    ∃ s, fields[i]? = some s ∧ parsePyInt s = some v := by
  unfold fieldAsInt at h
  split at h
  · cases h
  · rename_i s hg
    split at h
    · cases h
    · rename_i w hp
      cases h
      exact ⟨s, hg, hp⟩

theorem fieldAsFloat_ok {fields : List String} {i : Nat} {v : Rat}
    (h : fieldAsFloat fields i = .ok v) :
    ∃ s, fields[i]? = some s ∧ parsePyFloat s = some v := by
  unfold fieldAsFloat at h
  split at h
  · cases h
  · rename_i s hg
    split at h
    · cases h
    · rename_i w hp
      cases h
      exact ⟨s, hg, hp⟩

theorem parsePreambleFields_ok {fields : List String} {p : Preamble}
    (h : parsePreambleFields fields = .ok p) :
    fieldAsInt fields 0 = .ok p.format ∧ fieldAsInt fields 1 = .ok p.type ∧
    fieldAsInt fields 2 = .ok p.points ∧ fieldAsInt fields 3 = .ok p.count ∧
    fieldAsFloat fields 4 = .ok p.xincrement ∧
    fieldAsFloat fields 5 = .ok p.xorigin ∧
    fieldAsFloat fields 6 = .ok p.xreference ∧
    fieldAsFloat fields 7 = .ok p.yincrement ∧
    fieldAsFloat fields 8 = .ok p.yorigin ∧
    fieldAsFloat fields 9 = .ok p.yreference := by
  unfold parsePreambleFields at h
  simp only [bind, Except.bind] at h
  split at h <;> try cases h
  rename_i f0 h0
  split at h <;> try cases h
  rename_i f1 h1
  split at h <;> try cases h
  rename_i f2 h2
  split at h <;> try cases h
  rename_i f3 h3
  split at h <;> try cases h
  rename_i f4 h4
  split at h <;> try cases h
  rename_i f5 h5
  split at h <;> try cases h
  rename_i f6 h6
  split at h <;> try cases h
  rename_i f7 h7
  split at h <;> try cases h
  rename_i f8 h8
  split at h <;> try cases h
  rename_i f9 h9
  exact ⟨h0, h1, h2, h3, h4, h5, h6, h7, h8, h9⟩

/-! ### Framing strips

The chunked waveform path runs `self._osc._ask_raw(':wav:data?')[11:]`
(rigol1000z.py line 163, rigol2000a.py line 198): exactly the first 11 bytes
(the `#9nnnnnnnnn` binary-block header) are removed and nothing is removed
from the tail.  Screenshot reads run `self._read_raw(3850780)[11:-4]`
(rigol1000z.py line 371, rigol2000a.py line 396): 11 leading and 4 trailing
bytes are removed. -/

/-- `raw[11:]` on a byte string. -/
def blockPayload (raw : List Nat) : List Nat := raw.drop 11

/-- `raw[11:-4]` on a byte string (empty when the input is shorter than 15,
exactly as in Python). -/
def screenshotStrip (raw : List Nat) : List Nat :=
  (raw.drop 11).take (raw.length - 15)

/-! ### The `get_data` fetch state machine -/

/-- The `pts` argument of `set_memory_depth`: the literal string `'AUTO'` or
anything `int(...)` turns into an integer. -/
inductive MDepthArg
  | auto
  | num (n : Int)
deriving DecidableEq, Repr

/-- One SCPI command written to the instrument, as formatted by the source. -/
inductive Cmd
  | stop
  | wavSour (channel : Nat)
  | wavMode (mode : String)
  | wavFormByte
  | wavPreQuery
  | wavStar (n : Nat)
  | wavStopPt (n : Nat)
  | wavDataQuery
  | chanDispQuery (channel : Nat)
  | run
  | acqMdep (pts : MDepthArg)
  | chanCoup (channel : Nat) (coupling : String)
  | chanCoupQuery (channel : Nat)
  | chanProb (channel : Nat) (r : Rat)
  | chanProbQuery (channel : Nat)
  | measVrms (channel : Nat)
deriving DecidableEq, Repr

/-- The instrument, as `get_data` observes it: the text answered to
`:wav:pre?` and the raw bytes answered to `:wav:data?` after a
`(star, stop)` range has been selected. -/
structure WavDevice where
  preResp : String
  dataResp : Nat × Nat → List Nat

/-- Errors a `get_data` call can raise. -/
inductive GDErr
  | badMode
  | malformedPreamble (e : MalformedPreamble)
  | emptyConcatenate
deriving DecidableEq, Repr

/-- Decidable equality on `Except`, used to evaluate the model on concrete
inputs. -/
def exceptDecEq {ε α : Type} [DecidableEq ε] [DecidableEq α] :
    DecidableEq (Except ε α)
  | .error e, .error f =>
    if h : e = f then .isTrue (congrArg Except.error h)
    else .isFalse (fun hh => h (Except.error.inj hh))
  | .error _, .ok _ => .isFalse (fun hh => Except.noConfusion hh)
  | .ok _, .error _ => .isFalse (fun hh => Except.noConfusion hh)
  | .ok x, .ok y =>
    if h : x = y then .isTrue (congrArg Except.ok h)
    else .isFalse (fun hh => h (Except.ok.inj hh))

instance {ε α : Type} [DecidableEq ε] [DecidableEq α] : DecidableEq (Except ε α) :=
  exceptDecEq

/-- `np.concatenate(datas)`: raises `ValueError` when `datas` is the empty
list, otherwise concatenates in order. -/
def npConcatenate (datas : List (List Nat)) : Except GDErr (List Nat) :=
  if datas.isEmpty then .error .emptyConcatenate else .ok datas.flatten

/-- The 1054z reads each block with `_ask_raw(':wav:data?')`, an uncapped
read. -/
def blockRead1054z (dev : WavDevice) (r : Nat × Nat) : List Nat :=
  dev.dataResp r

/-- The 2072a reads each block with `_ask_raw(':wav:data?', max_num_pts+10000)`,
capping the bytes read. -/
def blockRead2072a (dev : WavDevice) (r : Nat × Nat) : List Nat :=
  (dev.dataResp r).take (1800000 + 10000)

/-- The loop body of the chunked path: per planned block, read raw bytes,
strip the 11-byte header, collect; then `np.concatenate`. -/
def assembledChunkBuf (read : Nat × Nat → List Nat) (points maxPts : Nat) :
    Except GDErr (List Nat) :=
  npConcatenate ((blockPlan points maxPts).map (fun r => blockPayload (read r)))

/-- The 2072a "norm" path (rigol2000a.py lines 202-206): one raw read of at
most 1500 bytes after selecting range 1..1400, taken whole as the buffer —
note no `[11:]` strip on this path. -/
def normBuffer2072a (dev : WavDevice) : List Nat :=
  (dev.dataResp (1, 1400)).take 1500

/-- `v = (datas - info['yorigin'] - info['yreference']) * info['yincrement']`,
elementwise over the byte buffer. -/
def decodeVoltage (buf : List Nat) (pre : Preamble) : List Rat :=
  buf.map (fun b : Nat => ((b : Rat) - pre.yorigin - pre.yreference) * pre.yincrement)

/-- `np.arange(0, stop, step)` under exact arithmetic: `⌈stop/step⌉` samples
`i*step`.  (numpy raises for `step = 0`; the driver's `xincrement` is a
positive device increment, and no claim depends on that degenerate case, so
it is modelled as the empty result.) -/
def npArange0 (stop step : Rat) : List Rat :=
  if step = 0 then []
  else (List.range (Int.toNat ⌈stop / step⌉)).map (fun i => (i : Rat) * step)

/-- `np.linspace(0, stop, n)`: `n` evenly spaced samples including both
endpoints. -/
def linspace0 (stop : Rat) (n : Nat) : List Rat :=
  if n ≤ 1 then (List.range n).map (fun _ => (0 : Rat))
  else (List.range n).map (fun i => stop * (i : Rat) / ((n : Rat) - 1))

/-- `_Rigol1054zChannel.get_data` (rigol1000z.py lines 137-180): assert the
mode, write the setup commands, decode the preamble, run the chunked
transfer with 250000-sample blocks, concatenate, and decode `(t, v)`.
Returns the trace of commands written and the result; Python's exceptions
(failed `assert`, preamble parse error, `np.concatenate([])`) become
`GDErr` values.  For a negative decoded `points` the source loop
`range(num_blocks+1)` is empty exactly like `blockPlan points.toNat`. -/
def get_data_1054z (chan : Nat) (mode : String) (dev : WavDevice) :
    List Cmd × Except GDErr (List Rat × List Rat) :=
  if mode = "norm" ∨ mode = "max" ∨ mode = "raw" then
    let setup := [Cmd.stop, Cmd.wavSour chan, Cmd.wavMode mode,
                  Cmd.wavFormByte, Cmd.wavPreQuery]
    match get_data_premable dev.preResp with
    | .error e => (setup, .error (.malformedPreamble e))
    | .ok info =>
      let pts := info.points.toNat
      let plan := blockPlan pts 250000
      let cmds := setup ++
        plan.flatMap (fun r => [Cmd.wavStar r.1, Cmd.wavStopPt r.2, Cmd.wavDataQuery])
      match assembledChunkBuf (blockRead1054z dev) pts 250000 with
      | .error e => (cmds, .error e)
      | .ok buf =>
        let v := decodeVoltage buf info
        let t := npArange0 ((info.points : Rat) * info.xincrement) info.xincrement
        (cmds, .ok (t, v))
  else ([], .error .badMode)

/-- `_Rigol2072aChannel.get_data` (rigol2000a.py lines 171-220): assert the
mode (only `norm`/`raw`), write the setup commands, decode the preamble;
in `raw` mode stop acquisition and run the chunked transfer with
1800000-sample blocks; in `norm` mode perform one fixed 1..1400 range read
of at most 1500 bytes and use the bytes read, unstripped, as the buffer. -/
def get_data_2072a (chan : Nat) (mode : String) (dev : WavDevice) :
    List Cmd × Except GDErr (List Rat × List Rat) :=
  if mode = "norm" ∨ mode = "raw" then
    let setup := [Cmd.wavSour chan, Cmd.wavMode mode,
                  Cmd.wavFormByte, Cmd.wavPreQuery]
    match get_data_premable dev.preResp with
    | .error e => (setup, .error (.malformedPreamble e))
    | .ok info =>
      if mode = "raw" then
        let pts := info.points.toNat
        let plan := blockPlan pts 1800000
        let cmds := (setup ++ [Cmd.stop]) ++
          plan.flatMap (fun r => [Cmd.wavStar r.1, Cmd.wavStopPt r.2, Cmd.wavDataQuery])
        match assembledChunkBuf (blockRead2072a dev) pts 1800000 with
        | .error e => (cmds, .error e)
        | .ok buf =>
          let v := decodeVoltage buf info
          let t := linspace0 ((info.points : Rat) * info.xincrement) v.length
          (cmds, .ok (t, v))
      else
        let buf := normBuffer2072a dev
        let cmds := setup ++ [Cmd.wavStar 1, Cmd.wavStopPt 1400, Cmd.wavDataQuery]
        let v := decodeVoltage buf info
        let t := linspace0 ((info.points : Rat) * info.xincrement) v.length
        (cmds, .ok (t, v))
  else ([], .error .badMode)

/-! ### Setter / accessor operations cited by the validation claims

Each is modelled as the pair (trace of commands written, success flag or
result); a failed Python `assert` is success flag `false` (no further
commands are written after it). -/

/-- `set_coupling` (rigol1000z.py lines 63-67, identical in rigol2000a.py):
uppercase the argument, assert membership in `('AC', 'DC', 'GND')` before
writing, then write the coupling command and the read-back query. -/
def set_coupling (chan : Nat) (coupling : String) : List Cmd × Bool :=
  let c := pyUpper coupling
  if c = "AC" ∨ c = "DC" ∨ c = "GND" then
    ([Cmd.chanCoup chan c, Cmd.chanCoupQuery chan], true)
  else ([], false)

/-- The probe ratios `set_probe_ratio` accepts, as exact rationals. -/
def legalProbeValues : List Rat :=
  [1/100, 1/50, 1/20, 1/10, 1/5, 1/2, 1, 2, 5, 10, 20, 50, 100, 200, 500, 1000]

/-- `set_probe_ratio` (rigol1000z.py lines 106-110): assert membership before
writing, then write the ratio and the read-back query. -/
def set_probe_ratio (chan : Nat) (r : Rat) : List Cmd × Bool :=
  if r ∈ legalProbeValues then
    ([Cmd.chanProb chan r, Cmd.chanProbQuery chan], true)
  else ([], false)

def mdepDepths1 : List MDepthArg :=
  [.auto, .num 12000, .num 120000, .num 1200000, .num 12000000, .num 24000000]

def mdepDepths2 : List MDepthArg :=
  [.auto, .num 6000, .num 60000, .num 600000, .num 6000000, .num 12000000]

def mdepDepths34 : List MDepthArg :=
  [.auto, .num 3000, .num 30000, .num 300000, .num 3000000, .num 6000000]

/-- The `if/elif` assertion chain of `set_memory_depth`: note that when the
enabled-channel count is outside 1..4 no branch runs, so any `pts` passes. -/
def mdepAccepts (n : Nat) (pts : MDepthArg) : Bool :=
  if n = 1 then decide (pts ∈ mdepDepths1)
  else if n = 2 then decide (pts ∈ mdepDepths2)
  else if n = 3 ∨ n = 4 then decide (pts ∈ mdepDepths34)
  else true

/-- `set_memory_depth` (rigol1000z.py lines 329-346, identical in
rigol2000a.py): FIRST queries every channel's display state (sending one
`:chanN:disp?` per constructed channel), counts the enabled ones, and only
then asserts `pts` against the table for that count.  `enabled` is the
instrument's answer per channel. -/
def set_memory_depth (enabled : List Bool) (pts : MDepthArg) : List Cmd × Bool :=
  let queries := (List.range enabled.length).map (fun k => Cmd.chanDispQuery (k + 1))
  if mdepAccepts (enabled.count true) pts then
    (queries ++ [Cmd.run, Cmd.acqMdep pts], true)
  else (queries, false)

/-- Python runtime errors surfaced by the indexing and measurement models. -/
inductive PyErr
  | assertionError
  | indexError
  | unboundLocalError
deriving DecidableEq, Repr

/-- `__getitem__` (rigol1000z.py lines 259-261, rigol2000a.py lines 295-297):
`assert 1 <= i <= 4` and then index `self._channels[i-1]`, which raises
`IndexError` when `i-1` is past the end of the channel list. -/
def chanGetitem (channels : List Nat) (i : Int) : Except PyErr Nat :=
  if 1 ≤ i ∧ i ≤ 4 then
    match channels[(i - 1).toNat]? with
    | some c => .ok c
    | none => .error .indexError
  else .error .assertionError

/-- `Rigol1054z.__init__` builds channels `for c in range(1,5)`. -/
def rigol1054zChannelNums : List Nat := List.range' 1 4

/-- `Rigol2072a.__init__` (rigol2000a.py line 291) builds channels
`for c in range(1,3)` — only two channel objects. -/
def rigol2072aChannelNums : List Nat := List.range' 1 2

/-- A Python function body's local-variable environment: a name assigned
anywhere in the body is local for the whole body and starts unbound;
reading it before its first assignment raises `UnboundLocalError` (rather
than consulting an enclosing scope). -/
def readLocal (localEnv : String → Option Int) (name : String) :
    Except PyErr Int :=
  match localEnv name with
  | some v => .ok v
  | none => .error .unboundLocalError

/-- `get_voltage_rms_V` (rigol1000z.py lines 51-54, byte-identical in
rigol2000a.py lines 86-89): the body is
`channel = int(channel); assert 1 <= channel <= 4; return self._osc.ask(...)`.
Because `channel` is assigned on its first line it is a local of the body,
so the right-hand side `int(channel)` reads an unbound local.  The
self-parameter `_selfChannel` (the constructor's channel number) is never
consulted, exactly as in the source. -/
def get_voltage_rms_V (_selfChannel : Nat) : List Cmd × Except PyErr String :=
  let localEnv : String → Option Int := fun _ => none
  match readLocal localEnv "channel" with
  | .error e => ([], .error e)
  | .ok ch =>
    if 1 ≤ ch ∧ ch ≤ 4 then ([Cmd.measVrms ch.toNat], .ok "vrms-response")
    else ([], .error .assertionError)

/-! ### Helper lemmas about the fetch models -/

theorem blockPlan_eq_of_getElem? (p m : Nat) (hm : 0 < m) (j : Nat)
    (r : Nat × Nat) (h : (blockPlan p m)[j]? = some r) :
    r = (1 + j * m, min ((j + 1) * m) p) ∧ j * m < p := by
  obtain ⟨hb, hget⟩ := List.getElem?_eq_some_iff.mp h
  have hc := blockPlan_getElem? p m hm j hb
  rw [List.getElem?_eq_getElem hb, hget] at hc
  exact ⟨Option.some.inj hc, blockPlan_start_lt p m hm j hb⟩

theorem get_data_1054z_reject (chan : Nat) (mode : String) (dev : WavDevice)
    (hmode : ¬(mode = "norm" ∨ mode = "max" ∨ mode = "raw")) :
    get_data_1054z chan mode dev = ([], .error .badMode) := by
  simp only [get_data_1054z, if_neg hmode]

theorem get_data_2072a_reject (chan : Nat) (mode : String) (dev : WavDevice)
    (hmode : ¬(mode = "norm" ∨ mode = "raw")) :
    get_data_2072a chan mode dev = ([], .error .badMode) := by
  simp only [get_data_2072a, if_neg hmode]

theorem get_data_1054z_trace_head (chan : Nat) (mode : String) (dev : WavDevice)
    (hmode : mode = "norm" ∨ mode = "max" ∨ mode = "raw") :
    (get_data_1054z chan mode dev).1 ≠ [] := by
  simp only [get_data_1054z, if_pos hmode]
  split
  · simp
  · split <;> simp

theorem get_data_2072a_trace_head (chan : Nat) (mode : String) (dev : WavDevice)
    (hmode : mode = "norm" ∨ mode = "raw") :
    (get_data_2072a chan mode dev).1 ≠ [] := by
  simp only [get_data_2072a, if_pos hmode]
  split
  · simp
  · split
    · split <;> simp
    · simp

theorem get_data_1054z_zero (chan : Nat) (mode : String) (dev : WavDevice)
    (info : Preamble) (hmode : mode = "norm" ∨ mode = "max" ∨ mode = "raw")
    (hdec : get_data_premable dev.preResp = .ok info) (hpts : info.points = 0) :
    get_data_1054z chan mode dev =
      ([Cmd.stop, Cmd.wavSour chan, Cmd.wavMode mode, Cmd.wavFormByte,
        Cmd.wavPreQuery], .error .emptyConcatenate) := by
  have h0 : info.points.toNat = 0 := by rw [hpts]; rfl
  simp [get_data_1054z, if_pos hmode, hdec, h0, blockPlan_zero,
    assembledChunkBuf, npConcatenate]

theorem get_data_2072a_zero_raw (chan : Nat) (dev : WavDevice)
    (info : Preamble) (hdec : get_data_premable dev.preResp = .ok info)
    (hpts : info.points = 0) :
    get_data_2072a chan "raw" dev =
      ([Cmd.wavSour chan, Cmd.wavMode "raw", Cmd.wavFormByte, Cmd.wavPreQuery,
        Cmd.stop], .error .emptyConcatenate) := by
  have h0 : info.points.toNat = 0 := by rw [hpts]; rfl
  simp [get_data_2072a, hdec, h0, blockPlan_zero,
    assembledChunkBuf, npConcatenate]

theorem assembledChunkBuf_length (read : Nat × Nat → List Nat)
    (points maxPts : Nat) (hm : 0 < maxPts)
    (hresp : ∀ r ∈ blockPlan points maxPts, (read r).length = 11 + rangeSize r)
    (buf : List Nat) (hok : assembledChunkBuf read points maxPts = .ok buf) :
    buf.length = points := by
  unfold assembledChunkBuf npConcatenate at hok
  split at hok
  · cases hok
  · cases hok
    rw [List.length_flatten, List.map_map]
    have hsz : ((blockPlan points maxPts).map
        (List.length ∘ fun r => blockPayload (read r))) =
        (blockPlan points maxPts).map rangeSize :=
      List.map_congr_left (fun r hr => by
        show (blockPayload (read r)).length = rangeSize r
        unfold blockPayload
        rw [List.length_drop, hresp r hr]
        omega)
    rw [hsz, blockPlan_sum points maxPts hm]

/-! ### Claim theorems -/

/-- Claim C1: for every `pointCount ≥ 0` and `maxBlockSize > 0`, the block
plan computed by `get_data` (`pointCount / maxBlockSize` full blocks, then a
remainder block only when `pointCount % maxBlockSize ≠ 0`) yields 1-based
inclusive ranges that are well-formed of size at most `maxBlockSize`, start
at 1, are contiguous, are pairwise disjoint, and whose sizes sum to exactly
`pointCount`. -/
theorem blockPlan_partition_spec (p m : Nat) (hm : 0 < m) :
    (∀ r ∈ blockPlan p m, r.1 ≤ r.2 ∧ rangeSize r ≤ m) ∧
    (∀ r : Nat × Nat, (blockPlan p m)[0]? = some r → r.1 = 1) ∧
    (∀ (j : Nat) (r r' : Nat × Nat), (blockPlan p m)[j]? = some r →
      (blockPlan p m)[j + 1]? = some r' → r'.1 = r.2 + 1) ∧
    (∀ (i j : Nat) (r r' : Nat × Nat), i < j → (blockPlan p m)[i]? = some r →
      (blockPlan p m)[j]? = some r' → r.2 < r'.1) ∧
    ((blockPlan p m).map rangeSize).sum = p := by
  refine ⟨?_, ?_, ?_, ?_, blockPlan_sum p m hm⟩
  · intro r hr
    obtain ⟨j, hj, hrj⟩ := blockPlan_mem p m hm r hr
    have hlt := blockPlan_start_lt p m hm j hj
    subst hrj
    have he : (j + 1) * m = j * m + m := by ring
    have h1 : min ((j + 1) * m) p ≤ (j + 1) * m := Nat.min_le_left _ _
    have h2 : 1 + j * m ≤ min ((j + 1) * m) p :=
      le_min (by omega) (by omega)
    constructor
    · exact h2
    · show min ((j + 1) * m) p + 1 - (1 + j * m) ≤ m
      omega
  · intro r h
    have := (blockPlan_eq_of_getElem? p m hm 0 r h).1
    rw [this]
    simp
  · intro j r r' h h'
    obtain ⟨hr, _⟩ := blockPlan_eq_of_getElem? p m hm j r h
    obtain ⟨hr', hlt'⟩ := blockPlan_eq_of_getElem? p m hm (j + 1) r' h'
    subst hr
    subst hr'
    show 1 + (j + 1) * m = min ((j + 1) * m) p + 1
    rw [Nat.min_eq_left (Nat.le_of_lt hlt')]
    omega
  · intro i j r r' hij h h'
    obtain ⟨hr, _⟩ := blockPlan_eq_of_getElem? p m hm i r h
    obtain ⟨hr', _⟩ := blockPlan_eq_of_getElem? p m hm j r' h'
    subst hr
    subst hr'
    show min ((i + 1) * m) p < 1 + j * m
    have h1 : min ((i + 1) * m) p ≤ (i + 1) * m := Nat.min_le_left _ _
    have h2 : (i + 1) * m ≤ j * m := Nat.mul_le_mul_right m hij
    omega

/-- Witness for C1 at `pointCount = 5`, `maxBlockSize = 2`. -/
theorem blockPlan_partition_spec_witness :
    0 < 2 ∧ ((blockPlan 5 2).map rangeSize).sum = 5 :=
  ⟨by decide, (blockPlan_partition_spec 5 2 (by decide)).2.2.2.2⟩

/-- Claim C4: decoded voltage satisfies
`voltage[i] = (rawByte[i] - yOrigin - yReference) * yIncrement` at every
index, and decoding an all-identical buffer yields the constant sequence of
that value. -/
theorem decodeVoltage_spec :
    (∀ (buf : List Nat) (pre : Preamble) (i : Nat),
      (decodeVoltage buf pre)[i]? =
        (buf[i]?).map
          (fun b : Nat => ((b : Rat) - pre.yorigin - pre.yreference) * pre.yincrement)) ∧
    (∀ (n b : Nat) (pre : Preamble),
      decodeVoltage (List.replicate n b) pre =
        List.replicate n
          (((b : Rat) - pre.yorigin - pre.yreference) * pre.yincrement)) := by
  constructor
  · intro buf pre i
    simp only [decodeVoltage, List.getElem?_map]
  · intro n b pre
    simp only [decodeVoltage, List.map_replicate]

/-- Claim C6: the chunked waveform path strips exactly the first 11 bytes of
each raw block and nothing from the tail, while the screenshot path strips
11 leading and 4 trailing bytes. -/
theorem framing_strip_spec :
    (∀ raw : List Nat, (blockPayload raw).length = raw.length - 11) ∧
    (∀ (raw : List Nat) (k : Nat), (blockPayload raw)[k]? = raw[11 + k]?) ∧
    (∀ raw : List Nat, (screenshotStrip raw).length = raw.length - 15) ∧
    (∀ (raw : List Nat) (k : Nat), k < raw.length - 15 →
      (screenshotStrip raw)[k]? = raw[11 + k]?) := by
  refine ⟨?_, ?_, ?_, ?_⟩
  · intro raw
    simp [blockPayload]
  · intro raw k
    simp [blockPayload, List.getElem?_drop]
  · intro raw
    simp only [screenshotStrip, List.length_take, List.length_drop]
    omega
  · intro raw k hk
    unfold screenshotStrip
    rw [List.getElem?_take_of_lt hk, List.getElem?_drop]

/-- Witness for C6's trailing-strip index property at a 20-byte read. -/
theorem framing_strip_spec_witness :
    0 < (List.range 20).length - 15 ∧
    (screenshotStrip (List.range 20))[0]? = (List.range 20)[11 + 0]? :=
  ⟨by decide, framing_strip_spec.2.2.2 (List.range 20) 0 (by decide)⟩

/-- Claim C9: a `Rigol2072a` constructs exactly 2 channel objects, so
`__getitem__` with `i = 3` or `i = 4` passes the `1 <= i <= 4` validation
and then fails with `IndexError` (not the assertion), and only `i = 1` and
`i = 2` return a channel. -/
theorem getitem_2072a_spec :
    chanGetitem rigol2072aChannelNums 3 = .error .indexError ∧
    chanGetitem rigol2072aChannelNums 4 = .error .indexError ∧
    (∀ i : Int,
      (∃ c, chanGetitem rigol2072aChannelNums i = .ok c) ↔ i = 1 ∨ i = 2) := by
  refine ⟨by decide, by decide, ?_⟩
  intro i
  constructor
  · rintro ⟨c, hc⟩
    unfold chanGetitem at hc
    split at hc
    · rename_i hi
      split at hc
      · rename_i c' hg
        have hb := (List.getElem?_eq_some_iff.mp hg).1
        have hlen : rigol2072aChannelNums.length = 2 := by decide
        rw [hlen] at hb
        omega
      · cases hc
    · cases hc
  · rintro (rfl | rfl)
    · exact ⟨1, by decide⟩
    · exact ⟨2, by decide⟩

/-- Claim C10: `get_voltage_rms_V` reads the local variable `channel` before
it is ever assigned, so on every channel object of both families every call
fails with `UnboundLocalError` before writing any command, and never returns
a measurement. -/
theorem vrms_unbound_local_spec :
    ∀ selfChannel : Nat,
      get_voltage_rms_V selfChannel = ([], .error .unboundLocalError) := by
  intro c
  rfl

/-- A device whose preamble reports 0 points. -/
def zeroDev : WavDevice :=
  { preResp := "0,0,0,0,1,0,0,1,0,0", dataResp := fun _ => [] }

/-- The decode of `zeroDev.preResp`. -/
def zeroPre : Preamble :=
  { format := 0, type := 0, points := 0, count := 0,
    xincrement := 1, xorigin := 0, xreference := 0,
    yincrement := 1, yorigin := 0, yreference := 0 }

/-- Counterexample to C2 as stated: with a 0-point preamble, `get_data` does
not return empty time and voltage sequences — after the loop breaks with no
collected blocks, `np.concatenate([])` raises `ValueError`. -/
theorem get_data_zero_points_cex :
    (get_data_1054z 1 "raw" zeroDev).2 = .error .emptyConcatenate ∧
    (get_data_1054z 1 "raw" zeroDev).2 ≠ .ok ([], []) := by
  constructor
  · rfl
  · intro h
    cases h.symm.trans (show (get_data_1054z 1 "raw" zeroDev).2 =
      .error .emptyConcatenate from rfl)

/-- Claim C2 (amended): when the preamble's point count is 0 `get_data`
iterates zero blocks and issues no range-select commands and no raw reads
(the command trace is exactly the fixed setup commands), but it then fails
with the `np.concatenate([])` error instead of returning empty time and
voltage sequences. -/
theorem get_data_zero_points_amended (chan : Nat) (mode : String)
    (dev : WavDevice) (info : Preamble)
    (hmode : mode = "norm" ∨ mode = "max" ∨ mode = "raw")
    (hdec : get_data_premable dev.preResp = .ok info)
    (hpts : info.points = 0) :
    blockPlan info.points.toNat 250000 = [] ∧
    blockPlan info.points.toNat 1800000 = [] ∧
    get_data_1054z chan mode dev =
      ([Cmd.stop, Cmd.wavSour chan, Cmd.wavMode mode, Cmd.wavFormByte,
        Cmd.wavPreQuery], .error .emptyConcatenate) ∧
    get_data_2072a chan "raw" dev =
      ([Cmd.wavSour chan, Cmd.wavMode "raw", Cmd.wavFormByte, Cmd.wavPreQuery,
        Cmd.stop], .error .emptyConcatenate) := by
  have h0 : info.points.toNat = 0 := by rw [hpts]; rfl
  exact ⟨by rw [h0]; exact blockPlan_zero _,
         by rw [h0]; exact blockPlan_zero _,
         get_data_1054z_zero chan mode dev info hmode hdec hpts,
         get_data_2072a_zero_raw chan dev info hdec hpts⟩

/-- Witness for the amended C2 on the concrete zero-point device. -/
theorem get_data_zero_points_amended_witness :
    get_data_2072a 2 "raw" zeroDev =
      ([Cmd.wavSour 2, Cmd.wavMode "raw", Cmd.wavFormByte, Cmd.wavPreQuery,
        Cmd.stop], .error .emptyConcatenate) :=
  (get_data_zero_points_amended 2 "raw" zeroDev zeroPre (by decide)
    (by decide) rfl).2.2.2

/-- A device that answers every `:wav:data?` query with the 11-byte
binary-block header followed by one byte per sample of the selected range —
the transport behaviour under which the chunked path is correct. -/
def headerDev : WavDevice :=
  { preResp := "0,0,1400,0,1,0,0,1,0,0",
    dataResp := fun r => List.replicate (11 + rangeSize r) 0 }

/-- Counterexample to C5 as stated: on the device model that honours the
11-byte header framing (the one the raw path's strip assumes), the 2072a
"norm" buffer keeps the header bytes, so it has 1411 entries, not the fixed
preview length 1400. -/
theorem norm_mode_1400_cex :
    (blockRead2072a headerDev (1, 1400)).length = 11 + rangeSize (1, 1400) ∧
    (normBuffer2072a headerDev).length = 1411 ∧ (1411 : Nat) ≠ 1400 := by
  refine ⟨?_, ?_, by decide⟩
  · show ((List.replicate (11 + rangeSize (1, 1400)) 0).take (1800000 + 10000)).length
      = 11 + rangeSize (1, 1400)
    rw [List.length_take, List.length_replicate]
    decide
  · show ((List.replicate (11 + rangeSize (1, 1400)) 0).take 1500).length = 1411
    rw [List.length_take, List.length_replicate]
    decide

/-- Claim C5 (amended): whenever every block read returns the 11-byte header
plus exactly the block's samples, the chunked buffer assembled by `get_data`
has final length equal to the preamble's point count (both families); in the
2072a's "norm" preview mode the buffer is the raw read's bytes taken whole
(no header strip), so its length is the response length capped at the 1500
byte read limit rather than the fixed 1400. -/
theorem buffer_length_amended :
    (∀ (dev : WavDevice) (points : Nat),
      (∀ r ∈ blockPlan points 250000,
        (blockRead1054z dev r).length = 11 + rangeSize r) →
      ∀ buf : List Nat,
        assembledChunkBuf (blockRead1054z dev) points 250000 = .ok buf →
        buf.length = points) ∧
    (∀ (dev : WavDevice) (points : Nat),
      (∀ r ∈ blockPlan points 1800000,
        (blockRead2072a dev r).length = 11 + rangeSize r) →
      ∀ buf : List Nat,
        assembledChunkBuf (blockRead2072a dev) points 1800000 = .ok buf →
        buf.length = points) ∧
    (∀ dev : WavDevice,
      (normBuffer2072a dev).length = min 1500 (dev.dataResp (1, 1400)).length) := by
  refine ⟨?_, ?_, ?_⟩
  · intro dev points hresp buf hok
    exact assembledChunkBuf_length (blockRead1054z dev) points 250000
      (by decide) hresp buf hok
  · intro dev points hresp buf hok
    exact assembledChunkBuf_length (blockRead2072a dev) points 1800000
      (by decide) hresp buf hok
  · intro dev
    simp [normBuffer2072a, List.length_take]

/-- Witness for the amended C5: a 3-point chunked fetch from `headerDev`. -/
theorem buffer_length_amended_witness :
    assembledChunkBuf (blockRead1054z headerDev) 3 250000 = .ok [0, 0, 0] ∧
    ([0, 0, 0] : List Nat).length = 3 :=
  ⟨by decide, buffer_length_amended.1 headerDev 3 (by decide) [0, 0, 0] (by decide)⟩

/-- Counterexample to C7 as stated: `set_memory_depth` with an illegal depth
(7) and one enabled channel does reject, but only after having already sent
the four per-channel display queries; and with zero enabled channels no
branch of the validation `if/elif` runs at all, so the illegal depth is
accepted and the depth command is sent to the instrument. -/
theorem validation_cex :
    (set_memory_depth [true, false, false, false] (MDepthArg.num 7)).2 = false ∧
    (set_memory_depth [true, false, false, false] (MDepthArg.num 7)).1 =
      [Cmd.chanDispQuery 1, Cmd.chanDispQuery 2, Cmd.chanDispQuery 3,
       Cmd.chanDispQuery 4] ∧
    (set_memory_depth [false, false, false, false] (MDepthArg.num 7)).2 = true ∧
    Cmd.acqMdep (MDepthArg.num 7) ∈
      (set_memory_depth [false, false, false, false] (MDepthArg.num 7)).1 := by
  decide

/-- Claim C7 (amended): the coupling, probe-ratio, channel-index and
acquisition-mode validations reject an illegal argument before any command
is sent (empty trace), but `set_memory_depth` first issues one display-state
query per channel and only then validates, and when zero channels are
enabled it performs no validation at all and accepts any depth. -/
theorem validation_amended :
    (∀ (chan : Nat) (coupling : String),
      ¬(pyUpper coupling = "AC" ∨ pyUpper coupling = "DC" ∨
        pyUpper coupling = "GND") →
      set_coupling chan coupling = ([], false)) ∧
    (∀ (chan : Nat) (r : Rat), r ∉ legalProbeValues →
      set_probe_ratio chan r = ([], false)) ∧
    (∀ (chan : Nat) (mode : String) (dev : WavDevice),
      ¬(mode = "norm" ∨ mode = "max" ∨ mode = "raw") →
      get_data_1054z chan mode dev = ([], .error .badMode)) ∧
    (∀ i : Int, ¬(1 ≤ i ∧ i ≤ 4) →
      chanGetitem rigol1054zChannelNums i = .error .assertionError) ∧
    (∀ (enabled : List Bool) (pts : MDepthArg),
      (set_memory_depth enabled pts).2 = false →
      (set_memory_depth enabled pts).1 =
        (List.range enabled.length).map (fun k => Cmd.chanDispQuery (k + 1))) ∧
    (∀ (enabled : List Bool) (pts : MDepthArg), enabled.count true = 0 →
      (set_memory_depth enabled pts).2 = true) := by
  refine ⟨?_, ?_, ?_, ?_, ?_, ?_⟩
  · intro chan coupling h
    simp only [set_coupling, if_neg h]
  · intro chan r h
    simp only [set_probe_ratio, if_neg h]
  · intro chan mode dev h
    exact get_data_1054z_reject chan mode dev h
  · intro i h
    simp only [chanGetitem, if_neg h]
  · intro enabled pts h
    simp only [set_memory_depth] at h ⊢
    cases hb : mdepAccepts (enabled.count true) pts
    · rfl
    · rw [hb] at h
      simp at h
  · intro enabled pts h
    simp [set_memory_depth, mdepAccepts, h]

/-- Witness for the amended C7 at concrete illegal arguments. -/
theorem validation_amended_witness :
    set_coupling 1 "xx" = ([], false) ∧
    (set_memory_depth [] MDepthArg.auto).2 = true :=
  ⟨validation_amended.1 1 "xx" (by decide),
   validation_amended.2.2.2.2.2 [] MDepthArg.auto (by decide)⟩

/-- Claim C8: `get_data` rejects, before issuing any instrument command, any
acquisition mode outside the family vocabulary — the 1054z accepts exactly
norm/max/raw and the 2072a exactly norm/raw; in particular the 2072a fails
for mode "max". -/
theorem mode_vocab_spec :
    (∀ (chan : Nat) (mode : String) (dev : WavDevice),
      get_data_1054z chan mode dev = ([], .error .badMode) ↔
        ¬(mode = "norm" ∨ mode = "max" ∨ mode = "raw")) ∧
    (∀ (chan : Nat) (mode : String) (dev : WavDevice),
      get_data_2072a chan mode dev = ([], .error .badMode) ↔
        ¬(mode = "norm" ∨ mode = "raw")) ∧
    (∀ (chan : Nat) (dev : WavDevice),
      get_data_2072a chan "max" dev = ([], .error .badMode)) := by
  refine ⟨?_, ?_, ?_⟩
  · intro chan mode dev
    constructor
    · intro heq hmode
      exact get_data_1054z_trace_head chan mode dev hmode (congrArg Prod.fst heq)
    · exact get_data_1054z_reject chan mode dev
  · intro chan mode dev
    constructor
    · intro heq hmode
      exact get_data_2072a_trace_head chan mode dev hmode (congrArg Prod.fst heq)
    · exact get_data_2072a_reject chan mode dev
  · intro chan dev
    exact get_data_2072a_reject chan "max" dev (by decide)

/-- Claim C3: decoding a well-formed comma-separated input with exactly 10
fields reproduces every field positionally with its expected type and value
(fields 0-3 as integers, fields 4-9 as floats); an input with fewer than 10
fields, or with a field that does not parse as its expected numeric type,
fails with a `MalformedPreamble` error and yields no partial result. -/
theorem preamble_decode_spec :
    (∀ (resp s0 s1 s2 s3 s4 s5 s6 s7 s8 s9 : String)
       (n0 n1 n2 n3 : Int) (q4 q5 q6 q7 q8 q9 : Rat),
      splitComma resp = [s0, s1, s2, s3, s4, s5, s6, s7, s8, s9] →
      parsePyInt s0 = some n0 → parsePyInt s1 = some n1 →
      parsePyInt s2 = some n2 → parsePyInt s3 = some n3 →
      parsePyFloat s4 = some q4 → parsePyFloat s5 = some q5 →
      parsePyFloat s6 = some q6 → parsePyFloat s7 = some q7 →
      parsePyFloat s8 = some q8 → parsePyFloat s9 = some q9 →
      get_data_premable resp =
        .ok { format := n0, type := n1, points := n2, count := n3,
              xincrement := q4, xorigin := q5, xreference := q6,
              yincrement := q7, yorigin := q8, yreference := q9 }) ∧
    (∀ resp : String, (splitComma resp).length < 10 →
      ∃ e, get_data_premable resp = .error e) ∧
    (∀ (resp : String) (i : Nat) (s : String),
      (splitComma resp)[i]? = some s →
      ((i < 4 ∧ parsePyInt s = none) ∨
       (4 ≤ i ∧ i < 10 ∧ parsePyFloat s = none)) →
      ∃ e, get_data_premable resp = .error e) := by
  refine ⟨?_, ?_, ?_⟩
  · intro resp s0 s1 s2 s3 s4 s5 s6 s7 s8 s9 n0 n1 n2 n3 q4 q5 q6 q7 q8 q9
      hsplit h0 h1 h2 h3 h4 h5 h6 h7 h8 h9
    unfold get_data_premable
    rw [hsplit]
    simp [parsePreambleFields, fieldAsInt, fieldAsFloat,
      h0, h1, h2, h3, h4, h5, h6, h7, h8, h9, bind, Except.bind]
    rfl
  · intro resp hlen
    cases hres : get_data_premable resp with
    | error e => exact ⟨e, rfl⟩
    | ok p =>
      exfalso
      unfold get_data_premable at hres
      have hinv := parsePreambleFields_ok hres
      obtain ⟨s, hg, _⟩ := fieldAsFloat_ok hinv.2.2.2.2.2.2.2.2.2
      have hb := (List.getElem?_eq_some_iff.mp hg).1
      omega
  · intro resp i s hg hbad
    cases hres : get_data_premable resp with
    | error e => exact ⟨e, rfl⟩
    | ok p =>
      exfalso
      unfold get_data_premable at hres
      have hinv := parsePreambleFields_ok hres
      have hub : i < 10 := by rcases hbad with ⟨h4, _⟩ | ⟨_, h10, _⟩ <;> omega
      interval_cases i
      · obtain ⟨s', hg', hp⟩ := fieldAsInt_ok hinv.1
        have hss := Option.some.inj (hg'.symm.trans hg)
        subst hss
        rcases hbad with ⟨_, hn⟩ | ⟨hge, _, _⟩
        · simp [hn] at hp
        · omega
      · obtain ⟨s', hg', hp⟩ := fieldAsInt_ok hinv.2.1
        have hss := Option.some.inj (hg'.symm.trans hg)
        subst hss
        rcases hbad with ⟨_, hn⟩ | ⟨hge, _, _⟩
        · simp [hn] at hp
        · omega
      · obtain ⟨s', hg', hp⟩ := fieldAsInt_ok hinv.2.2.1
        have hss := Option.some.inj (hg'.symm.trans hg)
        subst hss
        rcases hbad with ⟨_, hn⟩ | ⟨hge, _, _⟩
        · simp [hn] at hp
        · omega
      · obtain ⟨s', hg', hp⟩ := fieldAsInt_ok hinv.2.2.2.1
        have hss := Option.some.inj (hg'.symm.trans hg)
        subst hss
        rcases hbad with ⟨_, hn⟩ | ⟨hge, _, _⟩
        · simp [hn] at hp
        · omega
      · obtain ⟨s', hg', hp⟩ := fieldAsFloat_ok hinv.2.2.2.2.1
        have hss := Option.some.inj (hg'.symm.trans hg)
        subst hss
        rcases hbad with ⟨hlt, _⟩ | ⟨_, _, hn⟩
        · omega
        · simp [hn] at hp
      · obtain ⟨s', hg', hp⟩ := fieldAsFloat_ok hinv.2.2.2.2.2.1
        have hss := Option.some.inj (hg'.symm.trans hg)
        subst hss
        rcases hbad with ⟨hlt, _⟩ | ⟨_, _, hn⟩
        · omega
        · simp [hn] at hp
      · obtain ⟨s', hg', hp⟩ := fieldAsFloat_ok hinv.2.2.2.2.2.2.1
        have hss := Option.some.inj (hg'.symm.trans hg)
        subst hss
        rcases hbad with ⟨hlt, _⟩ | ⟨_, _, hn⟩
        · omega
        · simp [hn] at hp
      · obtain ⟨s', hg', hp⟩ := fieldAsFloat_ok hinv.2.2.2.2.2.2.2.1
        have hss := Option.some.inj (hg'.symm.trans hg)
        subst hss
        rcases hbad with ⟨hlt, _⟩ | ⟨_, _, hn⟩
        · omega
        · simp [hn] at hp
      · obtain ⟨s', hg', hp⟩ := fieldAsFloat_ok hinv.2.2.2.2.2.2.2.2.1
        have hss := Option.some.inj (hg'.symm.trans hg)
        subst hss
        rcases hbad with ⟨hlt, _⟩ | ⟨_, _, hn⟩
        · omega
        · simp [hn] at hp
      · obtain ⟨s', hg', hp⟩ := fieldAsFloat_ok hinv.2.2.2.2.2.2.2.2.2
        have hss := Option.some.inj (hg'.symm.trans hg)
        subst hss
        rcases hbad with ⟨hlt, _⟩ | ⟨_, _, hn⟩
        · omega
        · simp [hn] at hp

/-- Witness for C3 on the concrete well-formed preamble
`"2,1,1400,1,3,0,0,2,0,127"`. -/
theorem preamble_decode_spec_witness :
    get_data_premable "2,1,1400,1,3,0,0,2,0,127" =
      .ok { format := 2, type := 1, points := 1400, count := 1,
            xincrement := 3, xorigin := 0, xreference := 0,
            yincrement := 2, yorigin := 0, yreference := 127 } :=
  preamble_decode_spec.1 "2,1,1400,1,3,0,0,2,0,127"
    "2" "1" "1400" "1" "3" "0" "0" "2" "0" "127"
    2 1 1400 1 3 0 0 2 0 127
    (by decide) (by decide) (by decide) (by decide) (by decide) (by decide)
    (by decide) (by decide) (by decide) (by decide) (by decide)

/-- Witness for C8: the 2072a rejects mode "max" on a concrete device. -/
theorem mode_vocab_spec_witness :
    get_data_2072a 1 "max" zeroDev = ([], .error .badMode) :=
  mode_vocab_spec.2.2 1 zeroDev

/-- Witness for C9: channel 1 of the 2072a is retrievable. -/
theorem getitem_2072a_spec_witness :
    ∃ c, chanGetitem rigol2072aChannelNums 1 = .ok c :=
  (getitem_2072a_spec.2.2 1).mpr (Or.inl rfl)

end Rigol
